import Mathlib

/-!
Verification of the scan-filter-select-delete pipeline of
`iphone_photo_cleaner.py` (iPhone Photo Cleaner).  The pipeline logic of
`scan_thread`, `delete_thread`, `RetroImageGrid.get_selected` and
`iPhonePhotoCleaner._delete_selected` is embedded shallowly: Python strings
become lists of characters, the AFC device handle becomes a record of
explicit functions returning `Except`, every device call and progress
callback is recorded in an explicit trace, and Python exceptions become
`Except.error` values.
-/

/-- Python strings are modelled as lists of characters. -/
abbrev Str := List Char

/-- ASCII lowering of one character; models Python `str.lower` on the
ASCII range, which covers every extension the program compares against. -/
def lowerCh (c : Char) : Char :=
  if 65 ≤ c.toNat ∧ c.toNat ≤ 90 then Char.ofNat (c.toNat + 32) else c

/-- Models Python `str.lower`. -/
def lowerStr (s : Str) : Str := s.map lowerCh

/-- Models Python `str.endswith` for one suffix. -/
def endsWithS (s suffx : Str) : Bool := decide (suffx <:+ s)

/-- Whether an `Except` value is a success; models "no exception raised". -/
def exOk {ε α : Type} (x : Except ε α) : Bool :=
  match x with
  | Except.ok _ => true
  | Except.error _ => false

/-- The error payload of a failed `Except` (the exception message). -/
def exErr {α : Type} (x : Except Str α) : Str :=
  match x with
  | Except.ok _ => []
  | Except.error e => e

/-- Decimal rendering of a number, for progress message strings. -/
def natStr (n : Nat) : Str := Nat.toDigits 10 n

/-- The media kinds of the specification's MediaClassifier. -/
inductive MediaKind
  | image
  | heicImage
  | video
  | unsupported
deriving DecidableEq, Repr

def extJpg : Str := (".jpg").data
def extJpeg : Str := (".jpeg").data
def extPng : Str := (".png").data
def extHeic : Str := (".heic").data
def extHeif : Str := (".heif").data
def extMov : Str := (".mov").data
def extMp4 : Str := (".mp4").data
def extM4v : Str := (".m4v").data

/-- The file filter of `scan_thread` line 931:
`f.lower().endswith(('.jpg', '.jpeg', '.png', '.heic', '.heif', '.mov', '.mp4', '.m4v'))`. -/
def scanFilter (f : Str) : Bool :=
  endsWithS (lowerStr f) extJpg || endsWithS (lowerStr f) extJpeg ||
  endsWithS (lowerStr f) extPng || endsWithS (lowerStr f) extHeic ||
  endsWithS (lowerStr f) extHeif || endsWithS (lowerStr f) extMov ||
  endsWithS (lowerStr f) extMp4 || endsWithS (lowerStr f) extM4v

/-- Extension classification, assembled from the program's extension tests:
the video test of `add_thumbnail` line 312 (`.mov/.mp4/.m4v`), the HEIC test
of line 313 (`.heic/.heif`), and the remaining supported extensions of the
scan filter (`.jpg/.jpeg/.png`); everything else is unsupported. -/
def classify (f : Str) : MediaKind :=
  if endsWithS (lowerStr f) extMov || endsWithS (lowerStr f) extMp4 ||
     endsWithS (lowerStr f) extM4v then MediaKind.video
  else if endsWithS (lowerStr f) extHeic || endsWithS (lowerStr f) extHeif then
    MediaKind.heicImage
  else if endsWithS (lowerStr f) extJpg || endsWithS (lowerStr f) extJpeg ||
          endsWithS (lowerStr f) extPng then MediaKind.image
  else MediaKind.unsupported

/-- A calendar date, as Python `datetime.date`. -/
structure Date where
  year : Nat
  month : Nat
  day : Nat
deriving DecidableEq, Repr

/-- Python `date` comparison `a < b` (lexicographic on year, month, day). -/
def Date.ltb (a b : Date) : Bool :=
  decide (a.year < b.year) ||
  (decide (a.year = b.year) &&
    (decide (a.month < b.month) ||
      (decide (a.month = b.month) && decide (a.day < b.day))))

/-- A Python `datetime`: the calendar date plus the time of day, which
`mtime.date()` discards. -/
structure DateTime where
  date : Date
  secondOfDay : Nat
deriving DecidableEq, Repr

/-- The result of `afc.stat`: `st_mtime` already converted by
`datetime.fromtimestamp`, and `st_size` (0 when absent, as
`stat.get` with default 0). -/
structure StatInfo where
  mtime : DateTime
  stSize : Nat
deriving DecidableEq, Repr

/-- The AFC device handle: each operation may raise, modelled as `Except`
with the exception message as payload.  `listdir`, `statF` and `rmF` model
`afc.listdir`, `afc.stat` and `afc.rm` keyed by the path string. -/
structure Device where
  listdir : Str → Except Str (List Str)
  statF : Str → Except Str StatInfo
  rmF : Str → Except Str Unit

/-- One `progress.update_progress(current, total, message)` call. -/
structure Progress where
  current : Nat
  total : Nat
  message : Str
deriving DecidableEq, Repr

/-- One entry of `old_photos` / `self.photos_data`: the dict built at
lines 957-962 with keys path, filename, date, size. -/
structure Photo where
  path : Str
  filename : Str
  date : DateTime
  size : Nat
deriving DecidableEq, Repr

def dcimRoot : Str := ("/DCIM").data

/-- `folder_path = f"/DCIM/{folder}"` (line 927). -/
def mkFolderPath (folder : Str) : Str := ("/DCIM/").data ++ folder

/-- `f"{folder_path}/{f}"` (line 932). -/
def mkPath (folderPath f : Str) : Str := folderPath ++ ('/') :: f

/-- `os.path.basename`: the segment after the last slash. -/
def basename (p : Str) : Str :=
  p.foldl (fun acc c => if c = '/' then [] else acc ++ [c]) []

def dotEntry : Str := (".").data
def dotDotEntry : Str := ("..").data

/-- The filter of line 920: `f not in [".", ".."]`. -/
def notDots (f : Str) : Bool := decide (f ≠ dotEntry ∧ f ≠ dotDotEntry)

def scanningMsg (folder : Str) : Str :=
  ("Scanning ").data ++ folder ++ ("...").data

def folderErrMsg (folder err : Str) : Str :=
  ("Folder ").data ++ folder ++ (": ").data ++ err

def checkingMsg (oldCount : Nat) : Str :=
  ("Checking dates... Found ").data ++ natStr oldCount ++ (" old photos").data

def thumbMsg : Str := ("Loading thumbnails...").data

def deleteMsg (dryRun : Bool) (filename : Str) : Str :=
  (if dryRun then ("Simulating").data else ("Deleting").data) ++
    (": ").data ++ filename

/-- Accumulator of the folder loop of `scan_thread` (lines 926-942):
collected media paths, the `scan_errors` list, and the progress updates
emitted so far. -/
structure FolderAcc where
  allPhotos : List Str
  scanErrors : List Str
  events : List Progress
deriving DecidableEq, Repr

/-- One iteration of the folder loop (lines 926-942): list the folder; on
success append every file passing the extension filter and then emit a
progress update; on failure append to `scan_errors` and `continue`
(skipping the progress update). -/
def folderStep (dev : Device) (total : Nat) (acc : FolderAcc) (iF : Nat × Str) :
    FolderAcc :=
  match dev.listdir (mkFolderPath iF.2) with
  | Except.ok files =>
      { acc with
        allPhotos := acc.allPhotos ++
          (files.filter scanFilter).map (fun f => mkPath (mkFolderPath iF.2) f),
        events := acc.events ++ [⟨iF.1 + 1, total, scanningMsg iF.2⟩] }
  | Except.error e =>
      { acc with scanErrors := acc.scanErrors ++ [folderErrMsg iF.2 e] }

/-- The whole folder loop over the enumerated DCIM folders. -/
def folderPhase (dev : Device) (folders : List Str) : FolderAcc :=
  (folders.enum).foldl (folderStep dev folders.length) ⟨[], [], []⟩

/-- Accumulator of the date-check loop of `scan_thread` (lines 951-973):
`old_photos`, `date_check_errors`, the emitted progress updates, and the
trace of paths passed to `afc.stat`. -/
structure StatAcc where
  oldPhotos : List Photo
  dateCheckErrors : Nat
  events : List Progress
  statCalls : List Str
deriving DecidableEq, Repr

/-- One iteration of the date-check loop (lines 951-973): stat the path;
on success keep the photo iff `mtime.date() < cutoff_date`, then emit a
progress update iff `i % 10 == 0`; on failure increment
`date_check_errors` and `continue` (skipping the update). -/
def statStep (dev : Device) (cutoff : Date) (total : Nat) (acc : StatAcc)
    (ip : Nat × Str) : StatAcc :=
  let acc0 := { acc with statCalls := acc.statCalls ++ [ip.2] }
  match dev.statF ip.2 with
  | Except.ok st =>
      let acc1 :=
        if (st.mtime.date).ltb cutoff then
          { acc0 with oldPhotos :=
              acc0.oldPhotos ++ [⟨ip.2, basename ip.2, st.mtime, st.stSize⟩] }
        else acc0
      if ip.1 % 10 == 0 then
        { acc1 with events := acc1.events ++
            [⟨ip.1 + 1, total, checkingMsg acc1.oldPhotos.length⟩] }
      else acc1
  | Except.error _ =>
      { acc0 with dateCheckErrors := acc0.dateCheckErrors + 1 }

/-- The whole date-check loop over `all_photos`. -/
def statPhase (dev : Device) (cutoff : Date) (paths : List Str) : StatAcc :=
  (paths.enum).foldl (statStep dev cutoff paths.length) ⟨[], 0, [], []⟩

def maxThumbnails : Nat := 100

/-- The progress updates of the thumbnail loop (lines 984-1018): one update
per photo of `old_photos[:max_thumbnails]`, emitted after the try/except,
so regardless of whether loading the thumbnail succeeded. -/
def thumbEvents (oldCount : Nat) : List Progress :=
  (List.range (min oldCount maxThumbnails)).map
    (fun i => ⟨i + 1, min oldCount maxThumbnails, thumbMsg⟩)

/-- Everything `scan_thread` computes, with the three progress streams kept
per phase; the full notification order is their concatenation. -/
structure ScanOutcome where
  allPhotos : List Str
  oldPhotos : List Photo
  scanErrors : List Str
  dateCheckErrors : Nat
  statCalls : List Str
  folderEvents : List Progress
  statEvents : List Progress
  thumbEvts : List Progress
deriving DecidableEq, Repr

/-- The body of `scan_thread` (lines 914-1063).  Only the failure of the
root `listdir("/DCIM")` escapes the per-item handlers and aborts the scan;
it is surfaced as `Except.error`. -/
def scan_thread (dev : Device) (cutoff : Date) : Except Str ScanOutcome :=
  match dev.listdir dcimRoot with
  | Except.error e => Except.error e
  | Except.ok entries =>
      let folders := entries.filter notDots
      let fa := folderPhase dev folders
      let sa := statPhase dev cutoff fa.allPhotos
      Except.ok
        { allPhotos := fa.allPhotos
          oldPhotos := sa.oldPhotos
          scanErrors := fa.scanErrors
          dateCheckErrors := sa.dateCheckErrors
          statCalls := sa.statCalls
          folderEvents := fa.events
          statEvents := sa.events
          thumbEvts := thumbEvents sa.oldPhotos.length }

/-- The concatenated progress-notification stream of one scan call. -/
def ScanOutcome.events (o : ScanOutcome) : List Progress :=
  o.folderEvents ++ o.statEvents ++ o.thumbEvts

/-- What `scan_thread` hands to the caller when it finishes (lines
1020-1046): `self.photos_data`, the statistics labels and the delete-button
state.  The size label divides this byte total for display. -/
structure SurfacedScan where
  photosData : List Photo
  totalFoundLabel : Nat
  selectedLabel : Nat
  sizeBytesTotal : Nat
  deleteEnabled : Bool
deriving DecidableEq, Repr

/-- Lines 1020-1046: every caller-visible field is computed from
`old_photos` alone. -/
def surfaceScan (o : ScanOutcome) : SurfacedScan :=
  { photosData := o.oldPhotos
    totalFoundLabel := o.oldPhotos.length
    selectedLabel := o.oldPhotos.length
    sizeBytesTotal := (o.oldPhotos.map (fun p => p.size)).sum
    deleteEnabled := decide (o.oldPhotos ≠ []) }

/-- One grid thumbnail as stored by `RetroImageGrid.add_thumbnail`
(lines 393-398): its path, filename and the checkbox state. -/
structure Thumb where
  path : Str
  filename : Str
  selected : Bool
deriving DecidableEq, Repr

/-- `RetroImageGrid.get_selected` (lines 400-401). -/
def get_selected (ts : List Thumb) : List Thumb :=
  ts.filter (fun t => t.selected)

/-- Everything `delete_thread` computes (lines 1148-1168): the `deleted`
and `errors` counters, the `error_files` list, the trace of `afc.rm`
calls, the progress updates, and the mode the report messages reflect. -/
structure DeleteOutcome where
  deleted : Nat
  errors : Nat
  errorFiles : List Str
  rmCalls : List Str
  events : List Progress
  dryRun : Bool
deriving DecidableEq, Repr

/-- One iteration of the deletion loop (lines 1153-1168): when not in dry
run call `afc.rm`; a failure increments `errors` and appends the filename
(only) to `error_files`; a success, or any dry-run iteration, increments
`deleted`; afterwards always emit a progress update. -/
def deleteStep (dev : Device) (dryRun : Bool) (total : Nat)
    (acc : DeleteOutcome) (ip : Nat × Photo) : DeleteOutcome :=
  let acc1 :=
    if dryRun then { acc with deleted := acc.deleted + 1 }
    else
      match dev.rmF ip.2.path with
      | Except.ok _ =>
          { acc with rmCalls := acc.rmCalls ++ [ip.2.path],
                     deleted := acc.deleted + 1 }
      | Except.error _ =>
          { acc with rmCalls := acc.rmCalls ++ [ip.2.path],
                     errors := acc.errors + 1,
                     errorFiles := acc.errorFiles ++ [ip.2.filename] }
  { acc1 with events := acc1.events ++
      [⟨ip.1 + 1, total, deleteMsg dryRun ip.2.filename⟩] }

/-- The body of `delete_thread` (lines 1148-1168), iterating
`self.photos_data` in order. -/
def delete_thread (dev : Device) (photos : List Photo) (dryRun : Bool) :
    DeleteOutcome :=
  (photos.enum).foldl (deleteStep dev dryRun photos.length)
    ⟨0, 0, [], [], [], dryRun⟩

/-- `iPhonePhotoCleaner._delete_selected` (lines 1088-1156): it computes
`selected = self.image_grid.get_selected()` but the deletion loop then
iterates `self.photos_data`, so the grid selection is never consulted. -/
def delete_selected (dev : Device) (thumbs : List Thumb)
    (photosData : List Photo) (dryRun : Bool) : DeleteOutcome :=
  let _selected := get_selected thumbs
  delete_thread dev photosData dryRun

/-- The stat result actually observed for a path (defaulting on failure);
used only to state characterizations. -/
def statVal (dev : Device) (p : Str) : StatInfo :=
  match dev.statF p with
  | Except.ok st => st
  | Except.error _ => ⟨⟨⟨0, 0, 0⟩, 0⟩, 0⟩

/-! Concrete devices and scan outcomes used by witnesses and
counterexamples. -/

def fld100 : Str := ("100APPLE").data
def fld101 : Str := ("101APPLE").data
def fld102 : Str := ("102APPLE").data
def fileA : Str := ("IMG_1.JPG").data
def fileB : Str := ("IMG_2.JPG").data
def file3 : Str := ("IMG_3.JPG").data
def file4 : Str := ("IMG_4.JPG").data
def file5 : Str := ("IMG_5.JPG").data
def pathA : Str := mkPath (mkFolderPath fld100) fileA
def pathB : Str := mkPath (mkFolderPath fld100) fileB
def path3 : Str := mkPath (mkFolderPath fld100) file3
def dtOld : DateTime := ⟨⟨2024, 1, 1⟩, 43200⟩
def cutoffEx : Date := ⟨2025, 1, 1⟩
def stOld : StatInfo := ⟨dtOld, 1⟩

/-- A photo record as the scan builds it for a file of folder 100APPLE. -/
def mkSimplePhoto (name : Str) : Photo :=
  ⟨mkPath (mkFolderPath fld100) name, name, dtOld, 1⟩

def bMsg : Str := ("listdir failed").data
def sMsg : Str := ("stat failed").data

/-- Three folders list successfully; 100APPLE holds one old photo. -/
def dev9 : Device :=
  { listdir := fun p =>
      if p = dcimRoot then Except.ok [fld100, fld101, fld102]
      else if p = mkFolderPath fld100 then Except.ok [fileA]
      else if p = mkFolderPath fld101 then Except.ok []
      else if p = mkFolderPath fld102 then Except.ok []
      else Except.error bMsg
    statF := fun p => if p = pathA then Except.ok stOld else Except.error sMsg
    rmF := fun _ => Except.ok () }

def out9 : ScanOutcome :=
  { allPhotos := [pathA]
    oldPhotos := [mkSimplePhoto fileA]
    scanErrors := []
    dateCheckErrors := 0
    statCalls := [pathA]
    folderEvents := [⟨1, 3, scanningMsg fld100⟩, ⟨2, 3, scanningMsg fld101⟩,
                     ⟨3, 3, scanningMsg fld102⟩]
    statEvents := [⟨1, 1, checkingMsg 1⟩]
    thumbEvts := [⟨1, 1, thumbMsg⟩] }

/-- Two folders; enumerating the first fails, the second succeeds. -/
def dev7 : Device :=
  { listdir := fun p =>
      if p = dcimRoot then Except.ok [fld100, fld101]
      else if p = mkFolderPath fld101 then Except.ok []
      else Except.error bMsg
    statF := fun _ => Except.error sMsg
    rmF := fun _ => Except.ok () }

def out7 : ScanOutcome :=
  { allPhotos := []
    oldPhotos := []
    scanErrors := [folderErrMsg fld100 bMsg]
    dateCheckErrors := 0
    statCalls := []
    folderEvents := [⟨2, 2, scanningMsg fld101⟩]
    statEvents := []
    thumbEvts := [] }

/-- One folder with two old photos whose stats both succeed. -/
def dev8 : Device :=
  { listdir := fun p =>
      if p = dcimRoot then Except.ok [fld100]
      else if p = mkFolderPath fld100 then Except.ok [fileA, fileB]
      else Except.error bMsg
    statF := fun p =>
      if p = pathA ∨ p = pathB then Except.ok stOld else Except.error sMsg
    rmF := fun _ => Except.ok () }

def out8 : ScanOutcome :=
  { allPhotos := [pathA, pathB]
    oldPhotos := [mkSimplePhoto fileA, mkSimplePhoto fileB]
    scanErrors := []
    dateCheckErrors := 0
    statCalls := [pathA, pathB]
    folderEvents := [⟨1, 1, scanningMsg fld100⟩]
    statEvents := [⟨1, 2, checkingMsg 1⟩]
    thumbEvts := [⟨1, 2, thumbMsg⟩, ⟨2, 2, thumbMsg⟩] }

def fileBadStat : Str := ("IMG_9.JPG").data
def pathBadStat : Str := mkPath (mkFolderPath fld100) fileBadStat

/-- A device with one folder-listing failure and one stat failure. -/
def devDiagA : Device :=
  { listdir := fun p =>
      if p = dcimRoot then Except.ok [fld100, fld101]
      else if p = mkFolderPath fld100 then Except.ok [fileA, fileBadStat]
      else Except.error bMsg
    statF := fun p => if p = pathA then Except.ok stOld else Except.error sMsg
    rmF := fun _ => Except.ok () }

/-- The failure-free counterpart of `devDiagA` with the same old photo. -/
def devDiagB : Device :=
  { listdir := fun p =>
      if p = dcimRoot then Except.ok [fld100]
      else if p = mkFolderPath fld100 then Except.ok [fileA]
      else Except.error bMsg
    statF := fun p => if p = pathA then Except.ok stOld else Except.error sMsg
    rmF := fun _ => Except.ok () }

/-- A device whose remove operation always succeeds. -/
def devRmOk : Device :=
  { listdir := fun _ => Except.error bMsg
    statF := fun _ => Except.error sMsg
    rmF := fun _ => Except.ok () }

def causeA : Str := ("file not found").data
def causeB : Str := ("permission denied").data

/-- Removal fails on the third photo with one cause text. -/
def devFail3A : Device :=
  { listdir := fun _ => Except.error bMsg
    statF := fun _ => Except.error sMsg
    rmF := fun p => if p = path3 then Except.error causeA else Except.ok () }

/-- Removal fails on the third photo with a different cause text. -/
def devFail3B : Device :=
  { listdir := fun _ => Except.error bMsg
    statF := fun _ => Except.error sMsg
    rmF := fun p => if p = path3 then Except.error causeB else Except.ok () }

def photos5 : List Photo :=
  [mkSimplePhoto fileA, mkSimplePhoto fileB, mkSimplePhoto file3,
   mkSimplePhoto file4, mkSimplePhoto file5]

/-- Grid state with the first photo checked and the second unchecked. -/
def thumbs3 : List Thumb :=
  [⟨pathA, fileA, true⟩, ⟨pathB, fileB, false⟩]

def photos3 : List Photo := [mkSimplePhoto fileA, mkSimplePhoto fileB]


lemma enumFrom_fst_le {α : Type} :
    ∀ (l : List α) (n : Nat) (x : Nat × α), x ∈ List.enumFrom n l → n ≤ x.1 := by
  intro l
  induction l with
  | nil => intro n x hx; simp at hx
  | cons a as ih =>
      intro n x hx
      rcases List.mem_cons.mp hx with h | h
      · subst h; exact Nat.le_refl n
      · exact Nat.le_of_succ_le (ih (n + 1) x h)

lemma pairwise_fst_enumFrom {α : Type} :
    ∀ (l : List α) (n : Nat),
      (List.enumFrom n l).Pairwise (fun a b => a.1 < b.1) := by
  intro l
  induction l with
  | nil => intro n; simp
  | cons a as ih =>
      intro n
      refine List.Pairwise.cons ?_ (ih (n + 1))
      intro b hb
      exact Nat.lt_of_lt_of_le (Nat.lt_succ_self n) (enumFrom_fst_le as (n + 1) b hb)

lemma enumFrom_map_snd_f {α β : Type} (g : α → β) :
    ∀ (l : List α) (n : Nat),
      (List.enumFrom n l).map (fun ip => g ip.2) = l.map g := by
  intro l
  induction l with
  | nil => intro n; rfl
  | cons a as ih => intro n; simp [List.enumFrom, ih]

lemma enumFrom_filter_snd_map {α β : Type} (q : α → Bool) (g : α → β) :
    ∀ (l : List α) (n : Nat),
      ((List.enumFrom n l).filter (fun ip => q ip.2)).map (fun ip => g ip.2) =
        (l.filter q).map g := by
  intro l
  induction l with
  | nil => intro n; rfl
  | cons a as ih =>
      intro n
      cases hq : q a <;> simp [List.enumFrom, List.filter_cons, hq, ih]

lemma enumFrom_filter_snd_length {α : Type} (q : α → Bool) :
    ∀ (l : List α) (n : Nat),
      ((List.enumFrom n l).filter (fun ip => q ip.2)).length =
        (l.filter q).length := by
  intro l
  induction l with
  | nil => intro n; rfl
  | cons a as ih =>
      intro n
      cases hq : q a <;> simp [List.enumFrom, List.filter_cons, hq, ih]

lemma filter_not_length {α : Type} (p : α → Bool) :
    ∀ (l : List α),
      (l.filter p).length + (l.filter (fun a => !p a)).length = l.length := by
  intro l
  induction l with
  | nil => rfl
  | cons a as ih =>
      cases hp : p a <;> simp [List.filter_cons, hp] <;> omega

lemma suffix_trans_len {a b l : Str} (ha : a <:+ l) (hb : b <:+ l)
    (hab : a.length ≤ b.length) : a <:+ b := by
  have ha' : a.reverse <+: l.reverse := List.reverse_prefix.mpr ha
  have hb' : b.reverse <+: l.reverse := List.reverse_prefix.mpr hb
  have h := List.prefix_of_prefix_length_le ha' hb' (by simpa using hab)
  exact List.reverse_prefix.mp h

lemma suffix_either {a b l : Str} (ha : a <:+ l) (hb : b <:+ l) :
    a <:+ b ∨ b <:+ a := by
  rcases Nat.le_total a.length b.length with h | h
  · exact Or.inl (suffix_trans_len ha hb h)
  · exact Or.inr (suffix_trans_len hb ha h)

lemma no_two_suffix {a b l : Str} (ha : a <:+ l) (hb : b <:+ l)
    (h1 : ¬ a <:+ b) (h2 : ¬ b <:+ a) : False :=
  (suffix_either ha hb).elim h1 h2

lemma endsWithS_iff (s e : Str) : endsWithS s e = true ↔ e <:+ s := by
  simp [endsWithS]

lemma folderFold_events (dev : Device) (total : Nat) :
    ∀ (l : List (Nat × Str)) (acc : FolderAcc),
      (l.foldl (folderStep dev total) acc).events =
        acc.events ++
          (l.filter (fun iF => exOk (dev.listdir (mkFolderPath iF.2)))).map
            (fun iF => ⟨iF.1 + 1, total, scanningMsg iF.2⟩) := by
  intro l
  induction l with
  | nil => intro acc; simp
  | cons x xs ih =>
      intro acc
      rw [List.foldl_cons, ih]
      cases h : dev.listdir (mkFolderPath x.2) with
      | ok files => simp [folderStep, h, exOk, List.filter_cons]
      | error e => simp [folderStep, h, exOk, List.filter_cons]

lemma folderFold_errors (dev : Device) (total : Nat) :
    ∀ (l : List (Nat × Str)) (acc : FolderAcc),
      (l.foldl (folderStep dev total) acc).scanErrors =
        acc.scanErrors ++
          (l.filter (fun iF => !exOk (dev.listdir (mkFolderPath iF.2)))).map
            (fun iF => folderErrMsg iF.2 (exErr (dev.listdir (mkFolderPath iF.2)))) := by
  intro l
  induction l with
  | nil => intro acc; simp
  | cons x xs ih =>
      intro acc
      rw [List.foldl_cons, ih]
      cases h : dev.listdir (mkFolderPath x.2) with
      | ok files => simp [folderStep, h, exOk, exErr, List.filter_cons]
      | error e => simp [folderStep, h, exOk, exErr, List.filter_cons]

lemma folderFold_allPhotos_mem (dev : Device) (total : Nat) :
    ∀ (l : List (Nat × Str)) (acc : FolderAcc) (x : Str),
      x ∈ (l.foldl (folderStep dev total) acc).allPhotos →
      x ∈ acc.allPhotos ∨ ∃ fp f, scanFilter f = true ∧ x = mkPath fp f := by
  intro l
  induction l with
  | nil => intro acc x hx; exact Or.inl hx
  | cons y ys ih =>
      intro acc x hx
      rw [List.foldl_cons] at hx
      rcases ih (folderStep dev total acc y) x hx with h | h
      · cases hl : dev.listdir (mkFolderPath y.2) with
        | ok files =>
            rw [folderStep, hl] at h
            rcases List.mem_append.mp h with h' | h'
            · exact Or.inl h'
            · rcases List.mem_map.mp h' with ⟨f, hf, rfl⟩
              exact Or.inr ⟨mkFolderPath y.2, f, (List.mem_filter.mp hf).2, rfl⟩
        | error e =>
            rw [folderStep, hl] at h
            exact Or.inl h
      · exact Or.inr h

lemma statFold_statCalls (dev : Device) (cutoff : Date) (total : Nat) :
    ∀ (l : List (Nat × Str)) (acc : StatAcc),
      (l.foldl (statStep dev cutoff total) acc).statCalls =
        acc.statCalls ++ l.map (fun ip => ip.2) := by
  intro l
  induction l with
  | nil => intro acc; simp
  | cons x xs ih =>
      intro acc
      rw [List.foldl_cons, ih]
      cases h : dev.statF x.2 with
      | ok st =>
          simp only [statStep, h]
          split_ifs <;> simp
      | error e => simp [statStep, h]

lemma statFold_dce (dev : Device) (cutoff : Date) (total : Nat) :
    ∀ (l : List (Nat × Str)) (acc : StatAcc),
      (l.foldl (statStep dev cutoff total) acc).dateCheckErrors =
        acc.dateCheckErrors +
          (l.filter (fun ip => !exOk (dev.statF ip.2))).length := by
  intro l
  induction l with
  | nil => intro acc; simp
  | cons x xs ih =>
      intro acc
      rw [List.foldl_cons, ih]
      cases h : dev.statF x.2 with
      | ok st =>
          simp only [statStep, h, exOk, List.filter_cons, Bool.not_true]
          split_ifs <;> simp_all
      | error e =>
          simp only [statStep, h, exOk, List.filter_cons, Bool.not_false]
          simp [Nat.add_assoc, Nat.add_comm 1]

lemma statFold_oldPhotos (dev : Device) (cutoff : Date) (total : Nat) :
    ∀ (l : List (Nat × Str)) (acc : StatAcc),
      (l.foldl (statStep dev cutoff total) acc).oldPhotos =
        acc.oldPhotos ++
          (l.filter (fun ip =>
            exOk (dev.statF ip.2) &&
              ((statVal dev ip.2).mtime.date).ltb cutoff)).map
            (fun ip => ⟨ip.2, basename ip.2, (statVal dev ip.2).mtime,
                        (statVal dev ip.2).stSize⟩) := by
  intro l
  induction l with
  | nil => intro acc; simp
  | cons x xs ih =>
      intro acc
      rw [List.foldl_cons, ih]
      cases h : dev.statF x.2 with
      | ok st =>
          have hv : statVal dev x.2 = st := by simp [statVal, h]
          simp only [statStep, h, exOk, hv, List.filter_cons, Bool.true_and]
          split_ifs <;> simp_all
      | error e =>
          simp [statStep, h, exOk, List.filter_cons]

lemma statFold_events_current (dev : Device) (cutoff : Date) (total : Nat) :
    ∀ (l : List (Nat × Str)) (acc : StatAcc),
      ((l.foldl (statStep dev cutoff total) acc).events).map
          (fun e => e.current) =
        acc.events.map (fun e => e.current) ++
          (l.filter (fun ip =>
            (ip.1 % 10 == 0) && exOk (dev.statF ip.2))).map
            (fun ip => ip.1 + 1) := by
  intro l
  induction l with
  | nil => intro acc; simp
  | cons x xs ih =>
      intro acc
      rw [List.foldl_cons, ih]
      cases h : dev.statF x.2 with
      | ok st =>
          simp only [statStep, h, exOk, List.filter_cons, Bool.and_true]
          split_ifs <;> simp_all
      | error e =>
          simp [statStep, h, exOk, List.filter_cons]

lemma deleteFold_dry (dev : Device) (total : Nat) :
    ∀ (l : List (Nat × Photo)) (acc : DeleteOutcome),
      ((l.foldl (deleteStep dev true total) acc).deleted =
          acc.deleted + l.length) ∧
      ((l.foldl (deleteStep dev true total) acc).errors = acc.errors) ∧
      ((l.foldl (deleteStep dev true total) acc).errorFiles =
          acc.errorFiles) ∧
      ((l.foldl (deleteStep dev true total) acc).rmCalls = acc.rmCalls) ∧
      ((l.foldl (deleteStep dev true total) acc).dryRun = acc.dryRun) := by
  intro l
  induction l with
  | nil => intro acc; simp
  | cons x xs ih =>
      intro acc
      rw [List.foldl_cons]
      obtain ⟨h1, h2, h3, h4, h5⟩ := ih (deleteStep dev true total acc x)
      refine ⟨?_, ?_, ?_, ?_, ?_⟩
      · rw [h1]; simp only [deleteStep, if_pos trivial]; simp; omega
      · rw [h2]; simp [deleteStep]
      · rw [h3]; simp [deleteStep]
      · rw [h4]; simp [deleteStep]
      · rw [h5]; simp [deleteStep]

lemma deleteFold_real (dev : Device) (total : Nat) :
    ∀ (l : List (Nat × Photo)) (acc : DeleteOutcome),
      ((l.foldl (deleteStep dev false total) acc).rmCalls =
          acc.rmCalls ++ l.map (fun ip => ip.2.path)) ∧
      ((l.foldl (deleteStep dev false total) acc).errorFiles =
          acc.errorFiles ++
            (l.filter (fun ip => !exOk (dev.rmF ip.2.path))).map
              (fun ip => ip.2.filename)) ∧
      ((l.foldl (deleteStep dev false total) acc).deleted =
          acc.deleted +
            (l.filter (fun ip => exOk (dev.rmF ip.2.path))).length) ∧
      ((l.foldl (deleteStep dev false total) acc).errors =
          acc.errors +
            (l.filter (fun ip => !exOk (dev.rmF ip.2.path))).length) ∧
      ((l.foldl (deleteStep dev false total) acc).dryRun = acc.dryRun) := by
  intro l
  induction l with
  | nil => intro acc; simp
  | cons x xs ih =>
      intro acc
      rw [List.foldl_cons]
      obtain ⟨h1, h2, h3, h4, h5⟩ := ih (deleteStep dev false total acc x)
      cases h : dev.rmF x.2.path with
      | ok u =>
          refine ⟨?_, ?_, ?_, ?_, ?_⟩
          · rw [h1]; simp [deleteStep, h, exOk, List.filter_cons]
          · rw [h2]; simp [deleteStep, h, exOk, List.filter_cons]
          · rw [h3]; simp [deleteStep, h, exOk, List.filter_cons]; omega
          · rw [h4]; simp [deleteStep, h, exOk, List.filter_cons]
          · rw [h5]; simp [deleteStep, h, exOk, List.filter_cons]
      | error e =>
          refine ⟨?_, ?_, ?_, ?_, ?_⟩
          · rw [h1]; simp [deleteStep, h, exOk, List.filter_cons]
          · rw [h2]; simp [deleteStep, h, exOk, List.filter_cons]
          · rw [h3]; simp [deleteStep, h, exOk, List.filter_cons]
          · rw [h4]; simp [deleteStep, h, exOk, List.filter_cons]; omega
          · rw [h5]; simp [deleteStep, h, exOk, List.filter_cons]

lemma deleteFold_events_current (dev : Device) (b : Bool) (total : Nat) :
    ∀ (l : List (Nat × Photo)) (acc : DeleteOutcome),
      ((l.foldl (deleteStep dev b total) acc).events).map
          (fun e => e.current) =
        acc.events.map (fun e => e.current) ++ l.map (fun ip => ip.1 + 1) := by
  intro l
  induction l with
  | nil => intro acc; simp
  | cons x xs ih =>
      intro acc
      rw [List.foldl_cons, ih]
      cases b with
      | true => simp [deleteStep]
      | false =>
          cases h : dev.rmF x.2.path with
          | ok u => simp [deleteStep, h]
          | error e => simp [deleteStep, h]

lemma chain_current_of_enum_sublist {α : Type} {l : List α}
    {l' : List (Nat × α)} (h : List.Sublist l' l.enum) :
    List.Chain' (fun a b => a < b) (l'.map (fun ip => ip.1 + 1)) := by
  have hp : l'.Pairwise (fun a b => a.1 < b.1) :=
    (pairwise_fst_enumFrom l 0).sublist h
  have hm : (l'.map (fun ip => ip.1 + 1)).Pairwise (fun a b => a < b) :=
    (List.pairwise_map).mpr (hp.imp (fun hab => Nat.succ_lt_succ hab))
  exact hm.chain'

lemma chain_current_range_map (k t : Nat) (m : Str) :
    List.Chain' (fun a b => a < b)
      (((List.range k).map (fun i => (⟨i + 1, t, m⟩ : Progress))).map
        (fun e => e.current)) := by
  have : ((List.range k).map (fun i => (⟨i + 1, t, m⟩ : Progress))).map
      (fun e => e.current) = (List.range k).map (fun i => i + 1) := by
    simp
  rw [this]
  have hp : (List.range k).Pairwise (fun a b => a < b) := List.pairwise_lt_range k
  exact ((List.pairwise_map).mpr (hp.imp (fun hab => Nat.succ_lt_succ hab))).chain'

lemma snd_mem_of_mem_enumFrom {α : Type} :
    ∀ (l : List α) (n : Nat) (x : Nat × α),
      x ∈ List.enumFrom n l → x.2 ∈ l := by
  intro l
  induction l with
  | nil => intro n x hx; simp at hx
  | cons a as ih =>
      intro n x hx
      rcases List.mem_cons.mp hx with h | h
      · subst h; exact List.mem_cons_self a as
      · exact List.mem_cons_of_mem a (ih (n + 1) x h)

lemma scan_thread_ok_elim (dev : Device) (cutoff : Date) (out : ScanOutcome)
    (hscan : scan_thread dev cutoff = Except.ok out) :
    ∃ entries, dev.listdir dcimRoot = Except.ok entries ∧
      out =
        { allPhotos := (folderPhase dev (entries.filter notDots)).allPhotos
          oldPhotos := (statPhase dev cutoff
            (folderPhase dev (entries.filter notDots)).allPhotos).oldPhotos
          scanErrors := (folderPhase dev (entries.filter notDots)).scanErrors
          dateCheckErrors := (statPhase dev cutoff
            (folderPhase dev (entries.filter notDots)).allPhotos).dateCheckErrors
          statCalls := (statPhase dev cutoff
            (folderPhase dev (entries.filter notDots)).allPhotos).statCalls
          folderEvents := (folderPhase dev (entries.filter notDots)).events
          statEvents := (statPhase dev cutoff
            (folderPhase dev (entries.filter notDots)).allPhotos).events
          thumbEvts := thumbEvents (statPhase dev cutoff
            (folderPhase dev (entries.filter notDots)).allPhotos).oldPhotos.length } := by
  unfold scan_thread at hscan
  cases hroot : dev.listdir dcimRoot with
  | error e => rw [hroot] at hscan; cases hscan
  | ok entries =>
      rw [hroot] at hscan
      exact ⟨entries, rfl, (Except.ok.inj hscan).symm⟩

lemma statPhase_statCalls (dev : Device) (cutoff : Date) (paths : List Str) :
    (statPhase dev cutoff paths).statCalls = paths := by
  unfold statPhase
  rw [statFold_statCalls]
  simp

lemma folderPhase_allPhotos_mem (dev : Device) (folders : List Str) (x : Str)
    (hx : x ∈ (folderPhase dev folders).allPhotos) :
    ∃ fp f, scanFilter f = true ∧ x = mkPath fp f := by
  unfold folderPhase at hx
  rcases folderFold_allPhotos_mem dev folders.length folders.enum ⟨[], [], []⟩
    x hx with h | h
  · simp at h
  · exact h

lemma scanFilter_iff_classify (f : Str) :
    scanFilter f = true ↔ classify f ≠ MediaKind.unsupported := by
  unfold scanFilter classify
  generalize endsWithS (lowerStr f) extJpg = b1
  generalize endsWithS (lowerStr f) extJpeg = b2
  generalize endsWithS (lowerStr f) extPng = b3
  generalize endsWithS (lowerStr f) extHeic = b4
  generalize endsWithS (lowerStr f) extHeif = b5
  generalize endsWithS (lowerStr f) extMov = b6
  generalize endsWithS (lowerStr f) extMp4 = b7
  generalize endsWithS (lowerStr f) extM4v = b8
  revert b1 b2 b3 b4 b5 b6 b7 b8
  decide

lemma classify_video_of (f : Str)
    (h : (endsWithS (lowerStr f) extMov || endsWithS (lowerStr f) extMp4 ||
          endsWithS (lowerStr f) extM4v) = true) :
    classify f = MediaKind.video := by
  unfold classify
  rw [if_pos h]

lemma classify_heic_of (f : Str)
    (h : (endsWithS (lowerStr f) extHeic ||
          endsWithS (lowerStr f) extHeif) = true) :
    classify f = MediaKind.heicImage := by
  have hvneg : ¬((endsWithS (lowerStr f) extMov ||
      endsWithS (lowerStr f) extMp4 ||
      endsWithS (lowerStr f) extM4v) = true) := by
    intro hv
    simp only [Bool.or_eq_true, or_assoc] at hv h
    rcases h with h | h <;> rcases hv with hv | hv | hv <;>
      exact no_two_suffix ((endsWithS_iff _ _).mp h)
        ((endsWithS_iff _ _).mp hv) (by decide) (by decide)
  unfold classify
  rw [if_neg hvneg, if_pos h]

lemma classify_image_of (f : Str)
    (h : (endsWithS (lowerStr f) extJpg || endsWithS (lowerStr f) extJpeg ||
          endsWithS (lowerStr f) extPng) = true) :
    classify f = MediaKind.image := by
  have hvneg : ¬((endsWithS (lowerStr f) extMov ||
      endsWithS (lowerStr f) extMp4 ||
      endsWithS (lowerStr f) extM4v) = true) := by
    intro hv
    simp only [Bool.or_eq_true, or_assoc] at hv h
    rcases h with h | h | h <;> rcases hv with hv | hv | hv <;>
      exact no_two_suffix ((endsWithS_iff _ _).mp h)
        ((endsWithS_iff _ _).mp hv) (by decide) (by decide)
  have hhneg : ¬((endsWithS (lowerStr f) extHeic ||
      endsWithS (lowerStr f) extHeif) = true) := by
    intro hh
    simp only [Bool.or_eq_true, or_assoc] at hh h
    rcases h with h | h | h <;> rcases hh with hh | hh <;>
      exact no_two_suffix ((endsWithS_iff _ _).mp h)
        ((endsWithS_iff _ _).mp hh) (by decide) (by decide)
  unfold classify
  rw [if_neg hvneg, if_neg hhneg, if_pos h]

/-- C1: for every item list, running the deletion with `simulate=true`
(`dry_run`) never invokes the device remove operation (the `afc.rm` call
trace is empty), and the resulting report is marked as a dry run with
`succeeded` equal to the number of items and an empty failed list. -/
theorem c1_simulate_no_device_mutation (dev : Device) (photos : List Photo) :
    (delete_thread dev photos true).rmCalls = [] ∧
    (delete_thread dev photos true).deleted = photos.length ∧
    (delete_thread dev photos true).errors = 0 ∧
    (delete_thread dev photos true).errorFiles = [] ∧
    (delete_thread dev photos true).dryRun = true := by
  obtain ⟨h1, h2, h3, h4, h5⟩ :=
    deleteFold_dry dev photos.length photos.enum ⟨0, 0, [], [], [], true⟩
  unfold delete_thread
  refine ⟨h4, ?_, h2, h3, h5⟩
  rw [h1]
  simp [List.enum_length]

/-- C2: every item in the scan result satisfies the strict date-only
comparison `mtime.date() < cutoff_date`; no item at or past the cutoff
ever appears. -/
theorem c2_scan_items_before_cutoff (dev : Device) (cutoff : Date)
    (out : ScanOutcome) (p : Photo)
    (hscan : scan_thread dev cutoff = Except.ok out)
    (hp : p ∈ out.oldPhotos) :
    (p.date.date).ltb cutoff = true := by
  obtain ⟨entries, hroot, rfl⟩ := scan_thread_ok_elim dev cutoff out hscan
  simp only at hp
  unfold statPhase at hp
  rw [statFold_oldPhotos] at hp
  simp only [List.nil_append] at hp
  rcases List.mem_map.mp hp with ⟨ip, hip, rfl⟩
  have hcond := (List.mem_filter.mp hip).2
  simp only [Bool.and_eq_true] at hcond
  exact hcond.2

/-- C2 witness: on a concrete device holding one photo dated 2024-01-01
under cutoff 2025-01-01, the theorem applies and the date test holds. -/
theorem c2_scan_items_before_cutoff_witness :
    ((mkSimplePhoto fileA).date.date).ltb cutoffEx = true :=
  c2_scan_items_before_cutoff dev9 cutoffEx out9 (mkSimplePhoto fileA)
    rfl (by decide)

/-- C3: the claim says the deletion pass operates on exactly the selected
subset.  In the code `_delete_selected` computes
`selected = self.image_grid.get_selected()` and then never uses it: the
deletion loop iterates `self.photos_data`.  With the second thumbnail
deselected, `get_selected` returns only the first path, yet both paths are
removed.  This contradicts the method's own name, docstring ("Delete
selected photos") and its no-selection warning, so it is a code bug. -/
theorem c3_selection_ignored_bug :
    (get_selected thumbs3).map (fun t => t.path) = [pathA] ∧
    (delete_selected devRmOk thumbs3 photos3 false).rmCalls =
      [pathA, pathB] ∧
    (delete_selected devRmOk thumbs3 photos3 false).deleted = 2 :=
  ⟨rfl, rfl, rfl⟩

/-- C4 counterexample: the claim says a failing item is recorded in the
failed list "with its filename and a cause description".  The code only
appends `photo["filename"]` to `error_files`; the cause is logged and
dropped.  Two devices whose removal of the third photo fails with
different cause texts produce bitwise identical reports, so no cause is
recorded anywhere in the report. -/
theorem c4_cause_not_recorded_cex :
    delete_thread devFail3A photos5 false =
      delete_thread devFail3B photos5 false ∧
    (delete_thread devFail3A photos5 false).errorFiles = [file3] ∧
    (delete_thread devFail3A photos5 false).rmCalls.length = 5 ∧
    causeA ≠ causeB :=
  ⟨by decide, by decide, by decide, by decide⟩

/-- C4 amended: a failure removing one item never aborts the batch — every
item's `afc.rm` is invoked, in input order, and each failing item is
recorded in the failed list with its filename only (the cause is written
to the log, not to the report). -/
theorem c4_failure_isolation_amended (dev : Device) (photos : List Photo) :
    (delete_thread dev photos false).rmCalls =
      photos.map (fun p => p.path) ∧
    (delete_thread dev photos false).errorFiles =
      (photos.filter (fun p => !exOk (dev.rmF p.path))).map
        (fun p => p.filename) ∧
    (delete_thread dev photos false).deleted =
      (photos.filter (fun p => exOk (dev.rmF p.path))).length ∧
    (delete_thread dev photos false).errors =
      (photos.filter (fun p => !exOk (dev.rmF p.path))).length := by
  obtain ⟨h1, h2, h3, h4, h5⟩ :=
    deleteFold_real dev photos.length photos.enum ⟨0, 0, [], [], [], false⟩
  unfold delete_thread
  refine ⟨?_, ?_, ?_, ?_⟩
  · rw [h1]
    simpa using enumFrom_map_snd_f (fun p : Photo => p.path) photos 0
  · rw [h2]
    simpa using enumFrom_filter_snd_map
      (fun p : Photo => !exOk (dev.rmF p.path)) (fun p => p.filename) photos 0
  · rw [h3]
    simpa using enumFrom_filter_snd_length
      (fun p : Photo => exOk (dev.rmF p.path)) photos 0
  · rw [h4]
    simpa using enumFrom_filter_snd_length
      (fun p : Photo => !exOk (dev.rmF p.path)) photos 0

/-- C5 counterexample: the claim says `statFailureCount` and
`folderFailures` are returned in full to the caller in the scan result.
A device with one folder-listing failure and one stat failure and a
failure-free device with the same old photo yield identical caller-visible
results (`photos_data`, labels, button state): the diagnostics are
collected in local variables and only logged, never surfaced. -/
theorem c5_diagnostics_hidden_cex :
    (scan_thread devDiagA cutoffEx).map surfaceScan =
      (scan_thread devDiagB cutoffEx).map surfaceScan ∧
    (scan_thread devDiagA cutoffEx).map
      (fun o => (o.scanErrors, o.dateCheckErrors)) =
      Except.ok ([folderErrMsg fld101 bMsg], 1) ∧
    (scan_thread devDiagB cutoffEx).map
      (fun o => (o.scanErrors, o.dateCheckErrors)) =
      Except.ok ([], 0) :=
  ⟨rfl, rfl, rfl⟩

/-- C5 amended: the scan accumulates `scan_errors` and
`date_check_errors` internally, but everything surfaced to the caller
(`photos_data`, the statistics labels, the delete-button state) is
computed from `old_photos` alone; the diagnostics are only logged and are
invisible in the surfaced result. -/
theorem c5_surfaced_ignores_diagnostics_amended (o : ScanOutcome) :
    surfaceScan o =
      surfaceScan { o with scanErrors := [], dateCheckErrors := 0 } := rfl

/-- C6: classification is pure and total (it is a function), case
variants classify identically, the extension mapping sends
jpg/jpeg/png to image, heic/heif to heicImage, mov/mp4/m4v to video and
everything else to unsupported, the scan keeps a file iff it is
supported, and in every scan each stat call and each result item stems
from a supported file, so unsupported files are never stat'ed and cannot
contribute to the stat-failure count, which ranges over supported files
only. -/
theorem c6_classifier :
    (∀ s t : Str, lowerStr s = lowerStr t → classify s = classify t) ∧
    (∀ f : Str,
      (endsWithS (lowerStr f) extJpg || endsWithS (lowerStr f) extJpeg ||
        endsWithS (lowerStr f) extPng) = true →
      classify f = MediaKind.image) ∧
    (∀ f : Str,
      (endsWithS (lowerStr f) extHeic ||
        endsWithS (lowerStr f) extHeif) = true →
      classify f = MediaKind.heicImage) ∧
    (∀ f : Str,
      (endsWithS (lowerStr f) extMov || endsWithS (lowerStr f) extMp4 ||
        endsWithS (lowerStr f) extM4v) = true →
      classify f = MediaKind.video) ∧
    (∀ f : Str, scanFilter f = true ↔ classify f ≠ MediaKind.unsupported) ∧
    (∀ (dev : Device) (cutoff : Date) (out : ScanOutcome),
      scan_thread dev cutoff = Except.ok out →
      (∀ p ∈ out.statCalls,
        ∃ fp f, classify f ≠ MediaKind.unsupported ∧ p = mkPath fp f) ∧
      (∀ q ∈ out.oldPhotos,
        ∃ fp f, classify f ≠ MediaKind.unsupported ∧ q.path = mkPath fp f) ∧
      out.dateCheckErrors =
        (out.allPhotos.filter (fun p => !exOk (dev.statF p))).length) := by
  refine ⟨?_, classify_image_of, classify_heic_of, classify_video_of,
    scanFilter_iff_classify, ?_⟩
  · intro s t h
    unfold classify
    rw [h]
  · intro dev cutoff out hscan
    obtain ⟨entries, hroot, rfl⟩ := scan_thread_ok_elim dev cutoff out hscan
    simp only
    refine ⟨?_, ?_, ?_⟩
    · intro p hp
      rw [statPhase_statCalls] at hp
      rcases folderPhase_allPhotos_mem dev (entries.filter notDots) p hp
        with ⟨fp, f, hf, rfl⟩
      exact ⟨fp, f, (scanFilter_iff_classify f).mp hf, rfl⟩
    · intro q hq
      unfold statPhase at hq
      rw [statFold_oldPhotos] at hq
      simp only [List.nil_append] at hq
      rcases List.mem_map.mp hq with ⟨ip, hip, rfl⟩
      have hmem := snd_mem_of_mem_enumFrom _ 0 ip
        (List.mem_of_mem_filter hip)
      rcases folderPhase_allPhotos_mem dev (entries.filter notDots) ip.2 hmem
        with ⟨fp, f, hf, hpath⟩
      exact ⟨fp, f, (scanFilter_iff_classify f).mp hf, hpath⟩
    · unfold statPhase
      rw [statFold_dce]
      simpa using enumFrom_filter_snd_length
        (fun p : Str => !exOk (dev.statF p))
        (folderPhase dev (entries.filter notDots)).allPhotos 0

/-- C6 witness: the theorem's video mapping applied to the
specification's example filename. -/
theorem c6_classifier_witness :
    classify (("clip.M4V").data) = MediaKind.video :=
  c6_classifier.2.2.2.1 (("clip.M4V").data) (by decide)

/-- C7 counterexample: the claim says one progress update is emitted per
enumerated subfolder, whether or not listing it succeeded.  On a device
with two folders whose first fails to list, the folder loop emits exactly
one update (for the second folder): the `continue` in the handler skips
the update for the failed folder.  The failure is still recorded and the
scan continues. -/
theorem c7_failed_folder_no_progress_cex :
    scan_thread dev7 cutoffEx = Except.ok out7 ∧
    ([fld100, fld101].filter notDots).length = 2 ∧
    out7.folderEvents.length = 1 ∧
    out7.scanErrors = [folderErrMsg fld100 bMsg] :=
  ⟨rfl, rfl, rfl, rfl⟩

/-- C7 amended: each subfolder error is non-fatal — it is recorded into
`scan_errors` and the folder is skipped — and a progress update
`(i+1, totalFolders, folderName)` is emitted after each successfully
enumerated subfolder; a folder whose enumeration fails emits no update. -/
theorem c7_folder_progress_amended (dev : Device) (cutoff : Date)
    (entries : List Str) (out : ScanOutcome)
    (hroot : dev.listdir dcimRoot = Except.ok entries)
    (hscan : scan_thread dev cutoff = Except.ok out) :
    out.folderEvents =
      (((entries.filter notDots).enum).filter
        (fun iF => exOk (dev.listdir (mkFolderPath iF.2)))).map
        (fun iF => ⟨iF.1 + 1, (entries.filter notDots).length,
                    scanningMsg iF.2⟩) ∧
    out.scanErrors =
      (((entries.filter notDots).enum).filter
        (fun iF => !exOk (dev.listdir (mkFolderPath iF.2)))).map
        (fun iF => folderErrMsg iF.2
          (exErr (dev.listdir (mkFolderPath iF.2)))) := by
  obtain ⟨entries2, hroot2, rfl⟩ := scan_thread_ok_elim dev cutoff out hscan
  have he : entries2 = entries := Except.ok.inj (hroot2.symm.trans hroot)
  subst he
  simp only
  constructor
  · unfold folderPhase
    rw [folderFold_events]
    simp
  · unfold folderPhase
    rw [folderFold_errors]
    simp

/-- C7 witness: the amended theorem applied to the two-folder device whose
first folder fails to enumerate. -/
theorem c7_folder_progress_amended_witness :
    out7.folderEvents =
      ((([fld100, fld101].filter notDots).enum).filter
        (fun iF => exOk (dev7.listdir (mkFolderPath iF.2)))).map
        (fun iF => ⟨iF.1 + 1, ([fld100, fld101].filter notDots).length,
                    scanningMsg iF.2⟩) ∧
    out7.scanErrors =
      ((([fld100, fld101].filter notDots).enum).filter
        (fun iF => !exOk (dev7.listdir (mkFolderPath iF.2)))).map
        (fun iF => folderErrMsg iF.2
          (exErr (dev7.listdir (mkFolderPath iF.2)))) :=
  c7_folder_progress_amended dev7 cutoffEx [fld100, fld101] out7 rfl rfl

/-- C8 counterexample: the claim says a stat-phase update is emitted every
10 processed files and additionally on the final file.  With two files
whose stats both succeed, the only update has `current = 1` (from
`i % 10 == 0` at `i = 0`); no update reports the final (second) file. -/
theorem c8_no_final_update_cex :
    scan_thread dev8 cutoffEx = Except.ok out8 ∧
    out8.allPhotos.length = 2 ∧
    out8.statEvents.map (fun e => e.current) = [1] :=
  ⟨rfl, rfl, rfl⟩

/-- C8 amended: a stat-phase progress update is emitted after processing
file `i` (0-based) exactly when `i % 10 == 0` and that file's stat
succeeded — the 1st, 11th, 21st, ... files — with no additional update on
the final file; a file whose stat fails emits no update even at those
indices. -/
theorem c8_stat_progress_amended (dev : Device) (cutoff : Date)
    (out : ScanOutcome)
    (hscan : scan_thread dev cutoff = Except.ok out) :
    out.statEvents.map (fun e => e.current) =
      ((out.allPhotos.enum).filter
        (fun ip => (ip.1 % 10 == 0) && exOk (dev.statF ip.2))).map
        (fun ip => ip.1 + 1) := by
  obtain ⟨entries, hroot, rfl⟩ := scan_thread_ok_elim dev cutoff out hscan
  simp only
  unfold statPhase
  rw [statFold_events_current]
  simp

/-- C8 witness: the amended theorem applied to the two-file device. -/
theorem c8_stat_progress_amended_witness :
    out8.statEvents.map (fun e => e.current) =
      ((out8.allPhotos.enum).filter
        (fun ip => (ip.1 % 10 == 0) && exOk (dev8.statF ip.2))).map
        (fun ip => ip.1 + 1) :=
  c8_stat_progress_amended dev8 cutoffEx out8 rfl

/-- C9 counterexample: the claim says the progress currents within one
scan call are strictly increasing, with the sole allowed exception at the
folder-phase/stat-phase boundary.  On a device with three folders and one
old photo the currents are `[1, 2, 3, 1, 1]`: even granting the allowed
folder/stat overlap, the stat-phase and thumbnail-phase currents
`[1, 1]` are not strictly increasing (the thumbnail phase restarts at 1,
duplicating index 1 a third time). -/
theorem c9_not_monotonic_cex :
    scan_thread dev9 cutoffEx = Except.ok out9 ∧
    (out9.folderEvents ++ out9.statEvents ++ out9.thumbEvts).map
      (fun e => e.current) = [1, 2, 3, 1, 1] ∧
    ¬ List.Chain' (fun a b => a < b)
      ((out9.statEvents ++ out9.thumbEvts).map (fun e => e.current)) := by
  refine ⟨rfl, rfl, ?_⟩
  intro h
  have h2 : List.Chain' (fun a b => a < b) [1, 1] := h
  rw [List.chain'_cons] at h2
  omega

/-- C9 amended: the progress currents are strictly increasing within each
phase separately — the folder phase, the stat phase and the thumbnail
phase of one scan call, and the whole of one deletion call — but each
phase restarts from 1, so monotonicity does not extend across phase
boundaries. -/
theorem c9_per_phase_monotonic_amended :
    (∀ (dev : Device) (cutoff : Date) (out : ScanOutcome),
      scan_thread dev cutoff = Except.ok out →
      List.Chain' (fun a b => a < b)
        (out.folderEvents.map (fun e => e.current)) ∧
      List.Chain' (fun a b => a < b)
        (out.statEvents.map (fun e => e.current)) ∧
      List.Chain' (fun a b => a < b)
        (out.thumbEvts.map (fun e => e.current))) ∧
    (∀ (dev : Device) (photos : List Photo) (b : Bool),
      List.Chain' (fun a b => a < b)
        ((delete_thread dev photos b).events.map (fun e => e.current))) := by
  constructor
  · intro dev cutoff out hscan
    obtain ⟨entries, hroot, rfl⟩ := scan_thread_ok_elim dev cutoff out hscan
    simp only
    refine ⟨?_, ?_, ?_⟩
    · have hcur : (folderPhase dev (entries.filter notDots)).events.map
          (fun e => e.current) =
          (((entries.filter notDots).enum).filter
            (fun iF => exOk (dev.listdir (mkFolderPath iF.2)))).map
            (fun ip => ip.1 + 1) := by
        unfold folderPhase
        rw [folderFold_events]
        simp [List.map_map]
      rw [hcur]
      exact chain_current_of_enum_sublist (List.filter_sublist _)
    · have hcur : (statPhase dev cutoff
          (folderPhase dev (entries.filter notDots)).allPhotos).events.map
          (fun e => e.current) =
          (((folderPhase dev (entries.filter notDots)).allPhotos.enum).filter
            (fun ip => (ip.1 % 10 == 0) && exOk (dev.statF ip.2))).map
            (fun ip => ip.1 + 1) := by
        unfold statPhase
        rw [statFold_events_current]
        simp
      rw [hcur]
      exact chain_current_of_enum_sublist (List.filter_sublist _)
    · unfold thumbEvents
      exact chain_current_range_map _ _ _
  · intro dev photos b
    have h := deleteFold_events_current dev b photos.length photos.enum
      ⟨0, 0, [], [], [], b⟩
    unfold delete_thread
    rw [h]
    simp only [List.map_nil, List.nil_append]
    exact chain_current_of_enum_sublist (List.Sublist.refl _)

/-- C9 witness: the amended theorem applied to the three-folder device. -/
theorem c9_per_phase_monotonic_amended_witness :
    List.Chain' (fun a b => a < b)
      (out9.folderEvents.map (fun e => e.current)) ∧
    List.Chain' (fun a b => a < b)
      (out9.statEvents.map (fun e => e.current)) ∧
    List.Chain' (fun a b => a < b)
      (out9.thumbEvts.map (fun e => e.current)) :=
  c9_per_phase_monotonic_amended.1 dev9 cutoffEx out9 rfl

/-- C10: in both modes every iterated item increments exactly one of the
success counter and the error list, so `succeeded + len(failed)` equals
the number of items and the error counter equals the failed-list
length. -/
theorem c10_partition (dev : Device) (photos : List Photo)
    (simulate : Bool) :
    (delete_thread dev photos simulate).deleted +
      (delete_thread dev photos simulate).errorFiles.length =
        photos.length ∧
    (delete_thread dev photos simulate).errors =
      (delete_thread dev photos simulate).errorFiles.length := by
  cases simulate with
  | true =>
      obtain ⟨h1, h2, h3, h4, h5⟩ :=
        deleteFold_dry dev photos.length photos.enum ⟨0, 0, [], [], [], true⟩
      unfold delete_thread
      rw [h1, h2, h3]
      simp [List.enum_length]
  | false =>
      obtain ⟨h1, h2, h3, h4, h5⟩ :=
        deleteFold_real dev photos.length photos.enum ⟨0, 0, [], [], [], false⟩
      unfold delete_thread
      rw [h2, h3, h4]
      simp only [List.nil_append, List.length_map, Nat.zero_add]
      constructor
      · have hpart := filter_not_length
          (fun ip : Nat × Photo => exOk (dev.rmF ip.2.path)) photos.enum
        rw [List.enum_length] at hpart
        omega
      · trivial
